import Mathlib

/-!
Verification of the devops-soar triage pipeline against its design notes.

The embedding mirrors the three Python sources:
  * `app/app.py` — the Flask `triage_ip` endpoint, modelled as a pure
    function of the parsed request body and an explicit external world
    (presence of the `ansible-playbook` executable, the job exit code,
    the text the job writes on its stderr stream, and the content of the
    `report.md` artifact file);
  * `app/scripts/check_abuseipdb.py` and `app/scripts/check_virustotal.py`
    — each modelled as a pure function of the secrets-file content, the
    argument vector, and the outcome of the single outbound request.
-/

/-- External world visible to one `triage_ip` call: whether the
`ansible-playbook` executable can be located, the exit code of the job,
what the job writes to its stderr stream, and the content of the
`report.md` artifact (none when the file does not exist). -/
structure World where
  ansibleFound : Bool
  exitCode : Int
  jobStderr : String
  reportFile : Option String
deriving Repr, DecidableEq

/-- One attempted external process invocation: the argument vector handed
to `subprocess.run` and whether a shell is interposed (`shell=True`).
`app.py` always passes a list and never sets `shell`, so `shell` is
recorded as `false` there. -/
structure Invocation where
  argv : List String
  shell : Bool
deriving Repr, DecidableEq

/-- Outcome of `subprocess.run`: `FileNotFoundError` when the executable is
missing, otherwise completion with a return code and the captured stderr
(`none` unless stderr capture was requested — `app.py` requests none). -/
inductive RunOutcome where
  | notFound
  | completed (returncode : Int) (capturedStderr : Option String)
deriving Repr, DecidableEq

/-- Semantics of `subprocess.run(command, text=True, check=True)`:
raises `FileNotFoundError` when the executable is absent; otherwise the
process runs, and stderr is captured only when capture was requested
(`app.py` passes no `capture_output`/`stderr` option, so capture is off
and `CalledProcessError.stderr` is `None`). -/
def subprocessRun (captureStderr : Bool) (w : World) : RunOutcome :=
  if w.ansibleFound then
    .completed w.exitCode (if captureStderr then some w.jobStderr else none)
  else
    .notFound

/-- A JSON object response as produced by `jsonify`: status code plus a
flat object whose values are strings or `null`. -/
structure HttpResponse where
  status : Nat
  body : List (String × Option String)
deriving Repr, DecidableEq

/-- First-match lookup in a parsed JSON object, mirroring Python dict
indexing (`data['ip']`, `'ip' in data`). -/
def lookupStr (k : String) : List (String × String) → Option String
  | [] => none
  | (k2, v) :: rest => if k2 = k then some v else lookupStr k rest

/-- The argument vector `app.py` builds for the automation job. -/
def triageCommand (ip : String) : List String :=
  ["ansible-playbook", "ansible/playbook.yml", "--extra-vars",
   "ip_to_check=" ++ ip]

/-- The `triage_ip` Flask handler of `app.py`, as a function of the parsed
request body (`none` when `request.get_json()` yields no object) and the
external world. Returns the HTTP response together with the list of
external process invocations attempted during the call. -/
def triage_ip (data : Option (List (String × String))) (w : World) :
    HttpResponse × List Invocation :=
  match data with
  | none => (⟨400, [("error", some "Missing \x27ip\x27 in request body")]⟩, [])
  | some d =>
    if d = [] ∨ lookupStr "ip" d = none then
      (⟨400, [("error", some "Missing \x27ip\x27 in request body")]⟩, [])
    else
      let ip := (lookupStr "ip" d).getD ""
      if ip = "127.0.0.1" then
        (⟨200, [("message", some "Playbook successfully executed for IP: 127.0.0.1"),
                ("report", some "There\x27s no place like home. It\x27s safe here.")]⟩, [])
      else
        let inv : Invocation := ⟨triageCommand ip, false⟩
        match subprocessRun false w with
        | .notFound =>
          (⟨500, [("error", some "ansible-playbook command not found.")]⟩, [inv])
        | .completed rc stderrCaptured =>
          if rc ≠ 0 then
            (⟨500, [("error", some ("Playbook execution failed for IP: " ++ ip)),
                    ("playbook_error", stderrCaptured)]⟩, [inv])
          else
            match w.reportFile with
            | none =>
              (⟨500, [("error", some "ansible-playbook command not found.")]⟩, [inv])
            | some content =>
              (⟨200, [("message", some ("Playbook successfully executed for IP: " ++ ip)),
                      ("report", some content)]⟩, [inv])

/-- C1: evaluation at the spec scenario. The request `{"ip":"8.8.8.8"}`
with a job that exits 1 after writing "boom" to stderr yields the 500
failure response with the right `error` field — but `playbook_error` is
`null`, not "boom": `app.py` calls `subprocess.run` without capturing
stderr, so `CalledProcessError.stderr` is `None`. -/
theorem triage_nonzero_exit_eval :
    triage_ip (some [("ip", "8.8.8.8")]) ⟨true, 1, "boom", none⟩ =
      (⟨500, [("error", some "Playbook execution failed for IP: 8.8.8.8"),
              ("playbook_error", none)]⟩,
       [⟨["ansible-playbook", "ansible/playbook.yml", "--extra-vars",
          "ip_to_check=8.8.8.8"], false⟩]) := by
  decide

/-- C2: a request whose `ip` field is `127.0.0.1` gets, in every external
world (hence deterministically, reading no file and independent of the
job), the fixed success response, and no external process is invoked. -/
theorem triage_diagnostic_ip (d : List (String × String)) (w : World)
    (h : lookupStr "ip" d = some "127.0.0.1") :
    triage_ip (some d) w =
      (⟨200, [("message", some "Playbook successfully executed for IP: 127.0.0.1"),
              ("report", some "There\x27s no place like home. It\x27s safe here.")]⟩, []) := by
  have hne : d ≠ [] := by
    intro e
    rw [e] at h
    simp [lookupStr] at h
  simp [triage_ip, hne, h]

/-- Witness for C2 at the concrete request of the spec scenario. -/
theorem triage_diagnostic_ip_witness :
    triage_ip (some [("ip", "127.0.0.1")]) ⟨true, 0, "", some "OK"⟩ =
      (⟨200, [("message", some "Playbook successfully executed for IP: 127.0.0.1"),
              ("report", some "There\x27s no place like home. It\x27s safe here.")]⟩, []) :=
  triage_diagnostic_ip [("ip", "127.0.0.1")] ⟨true, 0, "", some "OK"⟩ (by decide)

/-- C3 counterexample: a request whose `ip` field is the empty string is
not rejected. `app.py` only checks `not data or 'ip' not in data`, so an
empty-string `ip` passes validation, the playbook is invoked with
`ip_to_check=`, and (here, with the job succeeding and a report present)
a 200 success response is returned instead of the claimed 400. -/
theorem triage_empty_ip_counterexample :
    triage_ip (some [("ip", "")]) ⟨true, 0, "", some "OK"⟩ =
      (⟨200, [("message", some "Playbook successfully executed for IP: "),
              ("report", some "OK")]⟩,
       [⟨["ansible-playbook", "ansible/playbook.yml", "--extra-vars",
          "ip_to_check="], false⟩]) := by
  decide

/-- C3 (amended): when the request body is missing, is an empty object, or
lacks the `ip` key, `triage_ip` returns the 400 validation response and
never invokes the playbook. (An empty-string `ip` value is not caught by
this validation; see the counterexample.) -/
theorem triage_missing_ip (data : Option (List (String × String))) (w : World)
    (h : data = none ∨ ∃ d, data = some d ∧ (d = [] ∨ lookupStr "ip" d = none)) :
    triage_ip data w =
      (⟨400, [("error", some "Missing \x27ip\x27 in request body")]⟩, []) := by
  rcases h with h | ⟨d, rfl, hd⟩
  · subst h
    rfl
  · simp only [triage_ip]
    rw [if_pos hd]

/-- Witness for C3 (amended) at a concrete body lacking the `ip` key. -/
theorem triage_missing_ip_witness :
    triage_ip (some [("host", "example.org")]) ⟨true, 0, "", some "OK"⟩ =
      (⟨400, [("error", some "Missing \x27ip\x27 in request body")]⟩, []) :=
  triage_missing_ip (some [("host", "example.org")]) ⟨true, 0, "", some "OK"⟩
    (Or.inr ⟨[("host", "example.org")], rfl, by decide⟩)

/-- C6: for every request carrying a non-diagnostic `ip`, the call attempts
exactly one external invocation, whose argument vector is
`["ansible-playbook", "ansible/playbook.yml", "--extra-vars",
"ip_to_check=" ++ ip]` — the ip confined to the single final argv element —
and no shell is interposed. -/
theorem triage_command_shape (d : List (String × String)) (w : World) (ip : String)
    (h : lookupStr "ip" d = some ip) (hip : ip ≠ "127.0.0.1") :
    (triage_ip (some d) w).2 =
      [⟨["ansible-playbook", "ansible/playbook.yml", "--extra-vars",
         "ip_to_check=" ++ ip], false⟩] := by
  have hne : d ≠ [] := by
    intro e
    rw [e] at h
    simp [lookupStr] at h
  simp only [triage_ip, hne, h, subprocessRun, triageCommand, Option.getD]
  simp only [hip, if_false, Bool.false_eq_true, or_self, ite_false, reduceCtorEq]
  cases hw : w.ansibleFound
  · simp
  · simp only [if_true]
    by_cases hrc : w.exitCode ≠ 0
    · simp [hrc]
    · simp only [hrc, if_false, ite_false]
      cases w.reportFile <;> simp

/-- Witness for C6 at the spec scenario ip `8.8.8.8`. -/
theorem triage_command_shape_witness :
    (triage_ip (some [("ip", "8.8.8.8")]) ⟨true, 0, "", some "OK"⟩).2 =
      [⟨["ansible-playbook", "ansible/playbook.yml", "--extra-vars",
         "ip_to_check=" ++ "8.8.8.8"], false⟩] :=
  triage_command_shape [("ip", "8.8.8.8")] ⟨true, 0, "", some "OK"⟩ "8.8.8.8"
    (by decide) (by decide)

/-- C8: for every request carrying a non-diagnostic `ip`, when the
`ansible-playbook` executable cannot be located the response is the fixed
500 error object, not a success and not an unhandled fault. -/
theorem triage_exec_not_found (d : List (String × String)) (w : World) (ip : String)
    (h : lookupStr "ip" d = some ip) (hip : ip ≠ "127.0.0.1")
    (hw : w.ansibleFound = false) :
    (triage_ip (some d) w).1 =
      ⟨500, [("error", some "ansible-playbook command not found.")]⟩ := by
  have hne : d ≠ [] := by
    intro e
    rw [e] at h
    simp [lookupStr] at h
  simp [triage_ip, hne, h, hip, subprocessRun, hw]

/-- Witness for C8 with the executable absent. -/
theorem triage_exec_not_found_witness :
    (triage_ip (some [("ip", "8.8.4.4")]) ⟨false, 0, "", none⟩).1 =
      ⟨500, [("error", some "ansible-playbook command not found.")]⟩ :=
  triage_exec_not_found [("ip", "8.8.4.4")] ⟨false, 0, "", none⟩ "8.8.4.4"
    (by decide) (by decide) rfl

/-- C10: for every request carrying a non-diagnostic `ip`, when the job
exits 0 but `report.md` does not exist, the `open('report.md')` call raises
`FileNotFoundError`, which is caught by the same handler as the missing
executable: the response is the identical 500
`"ansible-playbook command not found."` error object. -/
theorem triage_missing_report (d : List (String × String)) (w : World) (ip : String)
    (h : lookupStr "ip" d = some ip) (hip : ip ≠ "127.0.0.1")
    (hf : w.ansibleFound = true) (h0 : w.exitCode = 0)
    (hr : w.reportFile = none) :
    (triage_ip (some d) w).1 =
      ⟨500, [("error", some "ansible-playbook command not found.")]⟩ := by
  have hne : d ≠ [] := by
    intro e
    rw [e] at h
    simp [lookupStr] at h
  simp [triage_ip, hne, h, hip, subprocessRun, hf, h0, hr]

/-- Witness for C10: job succeeds, report file absent. -/
theorem triage_missing_report_witness :
    (triage_ip (some [("ip", "9.9.9.9")]) ⟨true, 0, "", none⟩).1 =
      ⟨500, [("error", some "ansible-playbook command not found.")]⟩ :=
  triage_missing_report [("ip", "9.9.9.9")] ⟨true, 0, "", none⟩ "9.9.9.9"
    (by decide) (by decide) rfl rfl rfl

/-!
Embedding of the provider lookup scripts
(`check_abuseipdb.py`, `check_virustotal.py`).
-/

/-- JSON values, as produced by `response.json()` and consumed by
`json.dumps`. -/
inductive Json where
  | null
  | bool (b : Bool)
  | num (n : Int)
  | str (s : String)
  | arr (xs : List Json)
  | obj (fields : List (String × Json))

/-- First-match lookup among the fields of a JSON object, mirroring
Python `dict.get` once a default is supplied (see `dictGet`). -/
def lookupJson (k : String) : List (String × Json) → Option Json
  | [] => none
  | (k2, v) :: rest => if k2 = k then some v else lookupJson k rest

/-- Python `d.get(k, default)` on a dict `d` with fields `fields`. -/
def dictGet (fields : List (String × Json)) (k : String) (d : Json) : Json :=
  (lookupJson k fields).getD d

/-- Python `x.get(k, default)` on an arbitrary JSON value: raises
`AttributeError` (modelled as `Except.error`) when `x` is not a dict. -/
def pyGet (j : Json) (k : String) (d : Json) : Except String Json :=
  match j with
  | .obj fields => .ok (dictGet fields k d)
  | _ => .error "AttributeError"

/-- Python `str.split(sep)` for a single-character separator, over the
character list of the string: splits at every occurrence, keeping empty
pieces, and yields one piece for the empty input. -/
def splitChar (c : Char) : List Char → List (List Char)
  | [] => [[]]
  | x :: xs =>
    let r := splitChar c xs
    if x = c then [] :: r
    else
      match r with
      | [] => [[x]]
      | y :: ys => (x :: y) :: ys

/-- Python `line.split(':')`. -/
def pySplitColon (s : String) : List String :=
  (splitChar ':' s.toList).map (fun cs => String.mk cs)

/-- Python `str.strip()`: drop whitespace from both ends. -/
def pyStrip (s : String) : String :=
  String.mk
    (((s.toList.dropWhile Char.isWhitespace).reverse.dropWhile
        Char.isWhitespace).reverse)

/-- `pat` starts the list `l` (helper for the substring test). -/
def startsL : List Char → List Char → Bool
  | [], _ => true
  | _ :: _, [] => false
  | a :: as, b :: bs => a = b && startsL as bs

/-- Python `pat in line` on character lists: `pat` occurs contiguously. -/
def containsL (pat : List Char) (l : List Char) : Bool :=
  match l with
  | [] => startsL pat []
  | x :: xs => startsL pat (x :: xs) || containsL pat xs

/-- The module-level key-parsing loop shared by both scripts: scan the
secrets-file lines for the first one containing the marker (for example
`"abuseipdb_key:"`); on a match the key is `line.split(':')[1].strip()`,
otherwise the initial `''` survives. -/
def loadKey (marker : String) (ls : List String) : String :=
  match ls.find? (fun l => containsL marker.toList l.toList) with
  | some l => pyStrip ((pySplitColon l).getD 1 "")
  | none => ""

/-- Outcome of the module-level configuration block of a script: a fatal
diagnostic (printed as JSON, then `sys.exit(1)`) or the loaded API key. -/
inductive ConfigOutcome where
  | fatal (msg : String)
  | ok (apiKey : String)

/-- Module-level configuration of `check_abuseipdb.py`: `secrets` is the
line list of `secrets.yml` (`none` when the file is absent), `path` the
rendered `SECRETS_FILE` path. -/
def abuseConfig (secrets : Option (List String)) (path : String) : ConfigOutcome :=
  match secrets with
  | none => .fatal ("Secrets file not found. Looked at: " ++ path)
  | some ls =>
    let key := loadKey "abuseipdb_key:" ls
    if key = "" then .fatal "AbuseIPDB API key not found or is empty in secrets.yml"
    else .ok key

/-- Module-level configuration of `check_virustotal.py`. -/
def vtConfig (secrets : Option (List String)) (path : String) : ConfigOutcome :=
  match secrets with
  | none => .fatal ("Secrets file not found at " ++ path)
  | some ls =>
    let key := loadKey "virustotal_key:" ls
    if key = "" then .fatal "VirusTotal API key not found or is empty in secrets.yml"
    else .ok key

/-- Outcome of the single outbound request a script makes: a
`requests.exceptions.RequestException` (also produced by
`raise_for_status` on a 4xx/5xx), a `json.JSONDecodeError`, or a decoded
JSON body. -/
inductive NetOutcome where
  | requestError (msg : String)
  | jsonError
  | ok (body : Json)

/-- Observable run of a script: the JSON values printed to stdout in
order, the process exit code, and whether the outbound request was
issued. -/
structure ScriptRun where
  printed : List Json
  exitCode : Nat
  requested : Bool

/-- Success-path normalization of `check_virustotal.py`: the chained
`get` calls on the decoded body, then the five-field result dict, in
source order. Any `get` on a non-dict raises (`Except.error`). -/
def vtNormalize (body : Json) : Except String Json := do
  let data ← pyGet body "data" (.obj [])
  let attributes ← pyGet data "attributes" (.obj [])
  let stats ← pyGet attributes "last_analysis_stats" (.obj [])
  let owner ← pyGet attributes "as_owner" (.str "N/A")
  let harmless ← pyGet stats "harmless" (.num 0)
  let malicious ← pyGet stats "malicious" (.num 0)
  let suspicious ← pyGet stats "suspicious" (.num 0)
  let undetected ← pyGet stats "undetected" (.num 0)
  pure (.obj [("as_owner", owner), ("harmless", harmless),
              ("malicious", malicious), ("suspicious", suspicious),
              ("undetected", undetected)])

/-- Success-path extraction of `check_abuseipdb.py`:
`decoded_response.get('data', {})`. -/
def abuseExtract (body : Json) : Except String Json :=
  pyGet body "data" (.obj [])

/-- The `main()` body shared in shape by both scripts, after the
module-level configuration: missing argv[1] prints an error JSON and
exits 1; a transport or decode failure prints an error JSON and exits 1;
a decoded body is normalized and printed with exit 0, unless the
normalization raises, in which case the uncaught exception aborts the
process (nothing printed on stdout, exit 1). -/
def scriptMain (normalize : Json → Except String Json) (cfg : ConfigOutcome)
    (argv : List String) (net : NetOutcome) : ScriptRun :=
  match cfg with
  | .fatal msg => ⟨[.obj [("error", .str msg)]], 1, false⟩
  | .ok _ =>
    if argv.length < 2 then
      ⟨[.obj [("error", .str "No IP address provided.")]], 1, false⟩
    else
      match net with
      | .requestError m =>
        ⟨[.obj [("error", .str ("API request failed: " ++ m))]], 1, true⟩
      | .jsonError =>
        ⟨[.obj [("error", .str "Failed to decode JSON response from API.")]], 1, true⟩
      | .ok body =>
        match normalize body with
        | .ok r => ⟨[r], 0, true⟩
        | .error _ => ⟨[], 1, true⟩

/-- A full run of `check_abuseipdb.py`. -/
def runAbuse (secrets : Option (List String)) (path : String)
    (argv : List String) (net : NetOutcome) : ScriptRun :=
  scriptMain abuseExtract (abuseConfig secrets path) argv net

/-- A full run of `check_virustotal.py`. -/
def runVt (secrets : Option (List String)) (path : String)
    (argv : List String) (net : NetOutcome) : ScriptRun :=
  scriptMain vtNormalize (vtConfig secrets path) argv net

/-- A JSON object carrying an `"error"` key. -/
def hasErrorKey : Json → Bool
  | .obj fields => (lookupJson "error" fields).isSome
  | _ => false

/-!
The EnrichmentAggregator of the design. No source for it exists under
`src/` — the automation job drives the provider scripts directly — so it
is modelled from the spec wording.
-/

/-- Per-provider lookup outcome: `{ provider, ok, data, error }`. -/
structure ProviderResult where
  provider : String
  ok : Bool
  data : Option (List (String × Json))
  error : Option String

/-- An enrichment provider: a name and a total `check` — per the spec a
provider "never raises past the aggregator boundary", so `check` always
produces a `ProviderResult`. -/
structure EnrichmentProvider where
  name : String
  check : String → ProviderResult

/-- Modelled from the spec: the repository has no EnrichmentAggregator
source under `src/`. Per the spec, `enrich` "fans out to all configured
EnrichmentProviders for a given IP, collects each result or failure
independently", and the report keeps one slot per configured provider,
in configuration order. -/
def enrich (ip : String) (providers : List EnrichmentProvider) :
    List ProviderResult :=
  providers.map (fun p => p.check ip)

/-!  Theorems for the provider scripts and the aggregator. -/

/-- The ok-count and the not-ok-count of a result list partition its
length. -/
theorem countP_ok_partition (l : List ProviderResult) :
    l.countP (fun r => r.ok) + l.countP (fun r => !r.ok) = l.length := by
  induction l with
  | nil => rfl
  | cons x xs ih =>
    cases hx : x.ok <;> simp [List.countP_cons, hx] <;> omega

/-- C5: for every IP and configured provider list, the report of `enrich`
has exactly one entry per provider; the entries with `ok = false` number
exactly the failing providers, the rest carry `ok = true`; and the i-th
entry is the i-th configured provider's result (configuration order).
`enrich` is a total function, so the aggregation itself never fails. -/
theorem aggregator_partial_failure (ip : String) (ps : List EnrichmentProvider) :
    (enrich ip ps).length = ps.length ∧
    (enrich ip ps).countP (fun r => !r.ok) =
      ps.countP (fun p => !(p.check ip).ok) ∧
    (enrich ip ps).countP (fun r => r.ok) =
      ps.length - ps.countP (fun p => !(p.check ip).ok) ∧
    (∀ i (h1 : i < ps.length) (h2 : i < (enrich ip ps).length),
      (enrich ip ps).get ⟨i, h2⟩ = (ps.get ⟨i, h1⟩).check ip) := by
  have hlen : (enrich ip ps).length = ps.length := by simp [enrich]
  have hcf : (enrich ip ps).countP (fun r => !r.ok) =
      ps.countP (fun p => !(p.check ip).ok) := by
    simp [enrich, List.countP_map]
    rfl
  refine ⟨hlen, hcf, ?_, ?_⟩
  · have hpart := countP_ok_partition (enrich ip ps)
    omega
  · intro i h1 h2
    simp [enrich]

/-- Concrete provider set for the C5 witness: three providers of which
the first and third fail. -/
def sampleProviders : List EnrichmentProvider :=
  [⟨"abuseipdb", fun _ => ⟨"abuseipdb", false, none, some "missing credentials"⟩⟩,
   ⟨"virustotal", fun ip => ⟨"virustotal", true, some [("ip", .str ip)], none⟩⟩,
   ⟨"shodan", fun _ => ⟨"shodan", false, none, some "API request failed"⟩⟩]

/-- Witness for C5 at a three-provider configuration, reading out the
second slot of the report. -/
theorem aggregator_partial_failure_witness :
    (enrich "1.2.3.4" sampleProviders).get ⟨1, by simp [enrich, sampleProviders]⟩ =
      (sampleProviders.get ⟨1, by simp [sampleProviders]⟩).check "1.2.3.4" :=
  (aggregator_partial_failure "1.2.3.4" sampleProviders).2.2.2 1
    (by simp [sampleProviders]) (by simp [enrich, sampleProviders])

/-- The per-case output convention a script run satisfies, given its
configuration outcome `cfg`, argument vector, network outcome and
success-path normalization: every handled internal error (fatal
configuration, missing argument, transport failure, decode failure)
prints exactly one JSON object carrying the `"error"` key and exits 1,
not 0; the success path prints exactly one JSON value and exits 0; a
normalization fault aborts with nothing printed and exit 1; and exit
code 0 occurs only on the success path. -/
def perCaseConvention (cfg : ConfigOutcome) (argv : List String)
    (net : NetOutcome) (normalize : Json → Except String Json)
    (r : ScriptRun) : Prop :=
  (∀ msg, cfg = .fatal msg →
    r = ⟨[.obj [("error", .str msg)]], 1, false⟩) ∧
  (∀ key, cfg = .ok key →
    (argv.length < 2 →
      r = ⟨[.obj [("error", .str "No IP address provided.")]], 1, false⟩) ∧
    (¬ argv.length < 2 →
      (∀ m, net = .requestError m →
        r = ⟨[.obj [("error", .str ("API request failed: " ++ m))]], 1, true⟩) ∧
      (net = .jsonError →
        r = ⟨[.obj [("error", .str "Failed to decode JSON response from API.")]],
             1, true⟩) ∧
      (∀ body v, net = .ok body → normalize body = .ok v →
        r = ⟨[v], 0, true⟩) ∧
      (∀ body e, net = .ok body → normalize body = .error e →
        r = ⟨[], 1, true⟩))) ∧
  (r.exitCode = 0 →
    ∃ key body v, cfg = .ok key ∧ ¬ argv.length < 2 ∧ net = .ok body ∧
      normalize body = .ok v ∧ r = ⟨[v], 0, true⟩)

/-- Every `scriptMain` run satisfies the per-case output convention. -/
theorem scriptMain_cases (normalize : Json → Except String Json)
    (cfg : ConfigOutcome) (argv : List String) (net : NetOutcome) :
    perCaseConvention cfg argv net normalize
      (scriptMain normalize cfg argv net) := by
  refine ⟨?_, ?_, ?_⟩
  · rintro msg rfl
    rfl
  · rintro key rfl
    refine ⟨fun h2 => ?_, fun h2 => ⟨?_, ?_, ?_, ?_⟩⟩
    · simp [scriptMain, h2]
    · rintro m rfl
      simp [scriptMain, h2]
    · rintro rfl
      simp [scriptMain, h2]
    · rintro body v rfl hn
      simp [scriptMain, h2, hn]
    · rintro body e rfl hn
      simp [scriptMain, h2, hn]
  · intro h0
    cases cfg with
    | fatal msg => simp [scriptMain] at h0
    | ok key =>
      by_cases h2 : argv.length < 2
      · simp [scriptMain, h2] at h0
      · cases net with
        | requestError m => simp [scriptMain, h2] at h0
        | jsonError => simp [scriptMain, h2] at h0
        | ok body =>
          cases hn : normalize body with
          | ok v =>
            exact ⟨key, body, v, rfl, h2, rfl, hn, by simp [scriptMain, h2, hn]⟩
          | error e => simp [scriptMain, h2, hn] at h0

/-- C4 counterexample: run `check_abuseipdb.py` with a valid secrets file
and no command-line argument. It prints the diagnostic JSON object but
exits 1, not 0 — internal errors are signalled through the exit code
after all. -/
theorem script_exit_counterexample :
    (runAbuse (some ["abuseipdb_key: k"]) "secrets.yml"
        ["check_abuseipdb.py"] (.ok (.obj []))).printed =
      [.obj [("error", .str "No IP address provided.")]] ∧
    (runAbuse (some ["abuseipdb_key: k"]) "secrets.yml"
        ["check_abuseipdb.py"] (.ok (.obj []))).exitCode ≠ 0 := by
  refine ⟨rfl, by decide⟩

/-- C4 (amended): for each script — every handled internal error (fatal
configuration, missing command-line argument, transport failure, decode
failure) prints exactly one JSON object carrying the `"error"` key and
exits 1, not 0; the success path prints exactly one normalized JSON
value and exits 0; an unexpected response shape aborts with nothing
printed and exit 1; and exit code 0 occurs only on the success path. -/
theorem script_output_convention (secrets : Option (List String))
    (path : String) (argv : List String) (net : NetOutcome) :
    perCaseConvention (abuseConfig secrets path) argv net abuseExtract
      (runAbuse secrets path argv net) ∧
    perCaseConvention (vtConfig secrets path) argv net vtNormalize
      (runVt secrets path argv net) :=
  ⟨scriptMain_cases abuseExtract (abuseConfig secrets path) argv net,
   scriptMain_cases vtNormalize (vtConfig secrets path) argv net⟩

/-- Witness for C4 (amended): the missing-argument case of
`check_abuseipdb.py` with a valid secrets file prints the diagnostic
JSON error object and exits 1. -/
theorem script_output_convention_witness :
    runAbuse (some ["abuseipdb_key: k"]) "secrets.yml"
        ["check_abuseipdb.py"] (.ok (.obj [])) =
      ⟨[.obj [("error", .str "No IP address provided.")]], 1, false⟩ :=
  ((script_output_convention (some ["abuseipdb_key: k"]) "secrets.yml"
      ["check_abuseipdb.py"] (.ok (.obj []))).1.2.1 "k" rfl).1 (by decide)

/-- Reduction of an `Except` bind on a success value. -/
theorem except_ok_bind {ε : Type u} {α β : Type v} (a : α) (f : α → Except ε β) :
    (Except.ok a : Except ε α) >>= f = f a := rfl

/-- C7 counterexample: a successful response whose `data` field is the
JSON string `"x"`. Then `decoded.get('data', {}).get('attributes', {})`
raises `AttributeError`, nothing is printed, and the process aborts —
there is no printed JSON object carrying the five keys. -/
theorem vt_shape_counterexample :
    runVt (some ["virustotal_key: k"]) "secrets.yml"
        ["check_virustotal.py", "8.8.8.8"] (.ok (.obj [("data", .str "x")])) =
      ⟨[], 1, true⟩ := rfl

/-- C7 (amended): for every successful response body in which the
`data`, `data.attributes` and `attributes.last_analysis_stats` positions
hold JSON objects (as they do when present in real VirusTotal responses,
and as the defaults supply when absent), the script prints the result
object with exactly the keys `as_owner`, `harmless`, `malicious`,
`suspicious`, `undetected`, each count defaulting to 0 when absent from
`last_analysis_stats` and `as_owner` defaulting to "N/A" when absent;
a non-object in one of those positions instead aborts the script with
nothing printed. -/
theorem vt_normalize_shape (bf df af sf : List (String × Json))
    (hd : dictGet bf "data" (.obj []) = .obj df)
    (ha : dictGet df "attributes" (.obj []) = .obj af)
    (hs : dictGet af "last_analysis_stats" (.obj []) = .obj sf) :
    vtNormalize (.obj bf) =
      .ok (.obj [("as_owner", dictGet af "as_owner" (.str "N/A")),
                 ("harmless", dictGet sf "harmless" (.num 0)),
                 ("malicious", dictGet sf "malicious" (.num 0)),
                 ("suspicious", dictGet sf "suspicious" (.num 0)),
                 ("undetected", dictGet sf "undetected" (.num 0))]) := by
  simp [vtNormalize, pyGet, except_ok_bind, hd, ha, hs]

/-- Witness for C7 (amended) at the empty response object: every field
takes its default. -/
theorem vt_normalize_shape_witness :
    vtNormalize (.obj []) =
      .ok (.obj [("as_owner", .str "N/A"), ("harmless", .num 0),
                 ("malicious", .num 0), ("suspicious", .num 0),
                 ("undetected", .num 0)]) :=
  vt_normalize_shape [] [] [] [] rfl rfl rfl

/-- C9: for both scripts, an absent secrets file, or a blank parsed key,
prints exactly the diagnostic JSON error object and exits 1 before any
outbound request is issued (`requested = false`); otherwise the loaded
API key is `loadKey`, the whitespace-stripped `split(':')[1]` of the
first line containing the `<provider>_key:` marker. -/
theorem script_credentials_policy (secrets : Option (List String))
    (path : String) (argv : List String) (net : NetOutcome) :
    (secrets = none →
      runAbuse secrets path argv net =
        ⟨[.obj [("error", .str ("Secrets file not found. Looked at: " ++ path))]],
         1, false⟩ ∧
      runVt secrets path argv net =
        ⟨[.obj [("error", .str ("Secrets file not found at " ++ path))]],
         1, false⟩) ∧
    (∀ ls, secrets = some ls →
      (loadKey "abuseipdb_key:" ls = "" →
        runAbuse secrets path argv net =
          ⟨[.obj [("error",
              .str "AbuseIPDB API key not found or is empty in secrets.yml")]],
           1, false⟩) ∧
      (loadKey "abuseipdb_key:" ls ≠ "" →
        abuseConfig secrets path = .ok (loadKey "abuseipdb_key:" ls)) ∧
      (loadKey "virustotal_key:" ls = "" →
        runVt secrets path argv net =
          ⟨[.obj [("error",
              .str "VirusTotal API key not found or is empty in secrets.yml")]],
           1, false⟩) ∧
      (loadKey "virustotal_key:" ls ≠ "" →
        vtConfig secrets path = .ok (loadKey "virustotal_key:" ls))) := by
  constructor
  · rintro rfl
    exact ⟨rfl, rfl⟩
  · rintro ls rfl
    refine ⟨fun h => ?_, fun h => ?_, fun h => ?_, fun h => ?_⟩
    · simp [runAbuse, abuseConfig, h, scriptMain]
    · simp [abuseConfig, h]
    · simp [runVt, vtConfig, h, scriptMain]
    · simp [vtConfig, h]

/-- Witness for C9 with the secrets file absent. -/
theorem script_credentials_policy_witness :
    runAbuse none "secrets.yml" ["check_abuseipdb.py", "1.2.3.4"] (.ok (.obj [])) =
      ⟨[.obj [("error",
          .str ("Secrets file not found. Looked at: " ++ "secrets.yml"))]],
       1, false⟩ :=
  ((script_credentials_policy none "secrets.yml" ["check_abuseipdb.py", "1.2.3.4"]
      (.ok (.obj []))).1 rfl).1
